import Mathlib

/-!
Verification of the pomodoro state machine in `src/porsmo/pomodoro.rs`.

Time is embedded shallowly: `Instant` is a `Nat` tick count and `Duration`
is a `Nat` number of ticks (Rust's `Duration` is non-negative and its
`saturating_sub` matches truncated `Nat` subtraction).  The Rust methods
that read `Instant::now()` internally take the current instant `now : Nat`
as an explicit argument here.
-/

namespace Porsmo

/-- Modelled from the spec: the `Command` enumeration delivered by the
input collaborator, `Command ∈ {Quit, Yes, No, Enter, Pause, Resume,
Toggle, Skip, Unknown}` (not in `src/`; only its consumer is). -/
inductive Command where
  | Quit
  | Yes
  | No
  | Enter
  | Pause
  | Resume
  | Toggle
  | Skip
  | Unknown
  deriving DecidableEq

/-- Modelled from the spec: `Counter` from the `porsmo` library crate (not
in `src/`): `{ accumulated : Duration, running : bool, last_resume_instant :
Option Instant }` with `elapsed() = accumulated + (now - last_resume_instant
if running else 0)`. -/
structure Counter where
  accumulated : Nat
  running : Bool
  last_resume_instant : Option Nat
  deriving DecidableEq

/-- Modelled from the spec: `Counter::start` records `now` as the resume
instant and sets `running := true`; idempotent if already running. -/
def Counter.start (c : Counter) (now : Nat) : Counter :=
  if c.running then c
  else { c with running := true, last_resume_instant := some now }

/-- Modelled from the spec: `Counter::stop` folds `now - last_resume_instant`
into `accumulated` and sets `running := false`; idempotent if stopped. -/
def Counter.stop (c : Counter) (now : Nat) : Counter :=
  if c.running then
    { accumulated := c.accumulated + (now - c.last_resume_instant.getD now),
      running := false,
      last_resume_instant := none }
  else c

/-- Modelled from the spec: `Counter::toggle` stops if running, else starts. -/
def Counter.toggle (c : Counter) (now : Nat) : Counter :=
  if c.running then c.stop now else c.start now

/-- Modelled from the spec: `Counter::elapsed`, accumulated plus the live
delta when running; pure. -/
def Counter.elapsed (c : Counter) (now : Nat) : Nat :=
  c.accumulated + (if c.running then now - c.last_resume_instant.getD now else 0)

/-- Modelled from the spec: `Counter::started` is true iff running. -/
def Counter.started (c : Counter) : Bool :=
  c.running

/-- Modelled from the spec: `Counter::default()`, a stopped counter with
zero accumulated time. -/
def Counter.default : Counter :=
  { accumulated := 0, running := false, last_resume_instant := none }

/-- Modelled from the spec: `Counter::from(elapsed)`, a stopped counter
whose accumulated time is the given duration (used by the source to resume
counting from a frozen elapsed value). -/
def Counter.fromDuration (d : Nat) : Counter :=
  { accumulated := d, running := false, last_resume_instant := none }

/-- Modelled from the spec: `Stopwatch` from the `porsmo` library crate
(not in `src/`), the counter type used by the standalone loop; per the
spec's Counter contract it holds an optional start instant and an
accumulated duration.  `Stopwatch::new(start_time, elapsed)` is the
structure constructor. -/
structure Stopwatch where
  start_time : Option Nat
  accumulated : Nat
  deriving DecidableEq

/-- Modelled from the spec: `Stopwatch::new(start_time, elapsed)`. -/
def Stopwatch.new (st : Option Nat) (d : Nat) : Stopwatch :=
  { start_time := st, accumulated := d }

/-- Modelled from the spec: `Stopwatch::default()`, created at the current
instant; the spec's initial state is a fresh *started* timer with zero
accumulated time. -/
def Stopwatch.fresh (now : Nat) : Stopwatch :=
  { start_time := some now, accumulated := 0 }

/-- Modelled from the spec: `Stopwatch::elapsed`, accumulated plus the live
delta when started. -/
def Stopwatch.elapsed (sw : Stopwatch) (now : Nat) : Nat :=
  sw.accumulated + (match sw.start_time with
    | some t => now - t
    | none => 0)

/-- Modelled from the spec: `Stopwatch::start`; idempotent if started. -/
def Stopwatch.start (sw : Stopwatch) (now : Nat) : Stopwatch :=
  match sw.start_time with
  | some _ => sw
  | none => { sw with start_time := some now }

/-- Modelled from the spec: `Stopwatch::stop`; folds the live delta into
the accumulated duration; idempotent if stopped. -/
def Stopwatch.stop (sw : Stopwatch) (now : Nat) : Stopwatch :=
  match sw.start_time with
  | some t => { start_time := none, accumulated := sw.accumulated + (now - t) }
  | none => sw

/-- Modelled from the spec: `Stopwatch::toggle`. -/
def Stopwatch.toggle (sw : Stopwatch) (now : Nat) : Stopwatch :=
  match sw.start_time with
  | some _ => sw.stop now
  | none => sw.start now

/-- Modelled from the spec: `Stopwatch::started` is true iff counting. -/
def Stopwatch.started (sw : Stopwatch) : Bool :=
  sw.start_time.isSome

/-- Modelled from the spec: `PomodoroMode` (aliased `Mode` in the source),
the phase enumeration `{Work, Break, LongBreak}`. -/
inductive PomodoroMode where
  | Work
  | Break
  | LongBreak
  deriving DecidableEq

/-- Modelled from the spec: `PomoConfig`, the three configured target
durations. -/
structure PomoConfig where
  work_duration : Nat
  break_duration : Nat
  long_break_duration : Nat
  deriving DecidableEq

/-- Modelled from the spec: `PomodoroMode::current_target`: Work maps to
the work duration, Break to the break duration, LongBreak to the long
break duration. -/
def PomodoroMode.current_target (m : PomodoroMode) (config : PomoConfig) : Nat :=
  match m with
  | PomodoroMode.Work => config.work_duration
  | PomodoroMode.Break => config.break_duration
  | PomodoroMode.LongBreak => config.long_break_duration

/-- Modelled from the spec: `PomodoroSession` (aliased `Session` in the
source), `{ mode : PomodoroMode, number : u32 }`, the phase together with a
monotonically increasing round counter. -/
structure PomodoroSession where
  mode : PomodoroMode
  number : Nat
  deriving DecidableEq

/-- Modelled from the spec: `PomodoroSession::next` advances the round
number by one and computes the phase from the fixed cycle keyed on
`round_number % 8`: even rounds are Work, odd rounds are Break except that
every eighth round (index 7 mod 8) is LongBreak, giving the sequence
Work, Break, Work, Break, Work, Break, Work, LongBreak, repeating. -/
def PomodoroSession.next (s : PomodoroSession) : PomodoroSession :=
  let n := s.number + 1
  { number := n,
    mode :=
      if n % 2 = 0 then PomodoroMode.Work
      else if n % 8 = 7 then PomodoroMode.LongBreak
      else PomodoroMode.Break }

/-- Modelled from the spec: the default session is phase Work, round 0. -/
def PomodoroSession.default : PomodoroSession :=
  { mode := PomodoroMode.Work, number := 0 }

/-- The UI mode of `PomoState` (source `PomoStateMode`): either the modal
skip-confirmation state holding the frozen elapsed duration, or the live
running state holding the counter. -/
inductive PomoStateMode where
  | Skip (elapsed : Nat)
  | Running (counter : Counter)
  deriving DecidableEq

/-- The pomodoro UI state (source `PomoState`). -/
structure PomoState where
  mode : PomoStateMode
  session : PomodoroSession
  config : PomoConfig
  alert : Bool
  deriving DecidableEq

/-- Source `pomodoro_alert_message`: the (title, message) pair for the
upcoming phase. -/
def pomodoro_alert_message (next_mode : PomodoroMode) : String × String :=
  match next_mode with
  | PomodoroMode.Work => ("Your break ended!", "Time for some work")
  | PomodoroMode.Break => ("Pomodoro ended!", "Time for a short break")
  | PomodoroMode.LongBreak => ("Pomodoro 4 sessions complete!", "Time for a long break")

/-- Source `PomoState::handle_command` (the `CounterUIState` impl),
translated arm by arm; `now` is the instant at which the command is
handled (the Rust code reads `Instant::now()` inside the counter calls). -/
def PomoState.handle_command (s : PomoState) (command : Command) (now : Nat) :
    Option PomoState :=
  match command with
  | Command.Quit =>
    match s.mode with
    | PomoStateMode.Skip elapsed =>
      some { s with mode := PomoStateMode.Running ((Counter.fromDuration elapsed).start now) }
    | _ => none
  | Command.No =>
    match s.mode with
    | PomoStateMode.Skip elapsed =>
      some { s with mode := PomoStateMode.Running ((Counter.fromDuration elapsed).start now) }
    | _ => some s
  | Command.Enter =>
    match s.mode with
    | PomoStateMode.Running counter =>
      if s.session.mode.current_target s.config ≤ counter.elapsed now then
        some { s with
          mode := PomoStateMode.Running (Counter.default.start now),
          session := s.session.next,
          alert := false }
      else some s
    | PomoStateMode.Skip _ =>
      some { s with
        mode := PomoStateMode.Running (Counter.default.start now),
        session := s.session.next,
        alert := false }
  | Command.Yes =>
    match s.mode with
    | PomoStateMode.Skip _ =>
      some { s with
        mode := PomoStateMode.Running (Counter.default.start now),
        session := s.session.next,
        alert := false }
    | _ => some s
  | Command.Pause =>
    match s.mode with
    | PomoStateMode.Running counter =>
      some { s with mode := PomoStateMode.Running (counter.stop now) }
    | _ => some s
  | Command.Resume =>
    match s.mode with
    | PomoStateMode.Running counter =>
      some { s with mode := PomoStateMode.Running (counter.start now) }
    | _ => some s
  | Command.Toggle =>
    match s.mode with
    | PomoStateMode.Running counter =>
      some { s with mode := PomoStateMode.Running (counter.toggle now) }
    | _ => some s
  | Command.Skip =>
    match s.mode with
    | PomoStateMode.Running counter =>
      some { s with mode := PomoStateMode.Skip (counter.elapsed now) }
    | _ => some s
  | Command.Unknown => some s

/-- Source `PomoState::elpased` (sic): the live elapsed time in Running
mode, the frozen value in Skip mode. -/
def PomoState.elpased (s : PomoState) (now : Nat) : Nat :=
  match s.mode with
  | PomoStateMode.Running counter => counter.elapsed now
  | PomoStateMode.Skip elapsed => elapsed

/-- Source `PomoState::target`. -/
def PomoState.target (s : PomoState) : Nat :=
  s.session.mode.current_target s.config

/-- Source `PomoState::should_alert` (the `Alertable` impl):
`self.elpased() > self.target()`. -/
def PomoState.should_alert (s : PomoState) (now : Nat) : Bool :=
  decide (s.target < s.elpased now)

/-- Source `PomoState::alert`: the (title, message) pair it passes to the
alert dispatcher, namely `pomodoro_alert_message(self.session.next().mode)`
(the dispatch call itself is external I/O). -/
def PomoState.alert_args (s : PomoState) : String × String :=
  pomodoro_alert_message s.session.next.mode

/-- Rust `Duration::saturating_sub`; on `Nat` ticks this is truncated
subtraction, which saturates at zero. -/
def saturating_sub (a b : Nat) : Nat :=
  a - b

/-- The time field rendered by `PomoState::show`: the skip prompt, the
remaining time before the target, or the excess time past it. -/
inductive ShownTime where
  | skipping
  | remaining (d : Nat)
  | excess (d : Nat)
  deriving DecidableEq

/-- Pure projection of source `PomoState::show`: which duration is printed.
In Skip mode the skip prompt is shown; in Running mode with
`counter.elapsed() < target` the remaining time `target - elapsed` is
shown; otherwise the excess `elapsed - target` is shown with a `+` sign,
both via `Duration::saturating_sub`. -/
def PomoState.shown_time (s : PomoState) (now : Nat) : ShownTime :=
  match s.mode with
  | PomoStateMode.Skip _ => ShownTime.skipping
  | PomoStateMode.Running counter =>
    if counter.elapsed now < s.target then
      ShownTime.remaining (saturating_sub s.target (counter.elapsed now))
    else
      ShownTime.excess (saturating_sub (counter.elapsed now) s.target)

/-- Source `UIMode`, the mode of the standalone `pomodoro` event loop. -/
inductive UIMode where
  | Skip (elapsed : Nat)
  | Running (stopwatch : Stopwatch)
  deriving DecidableEq

/-- The mutable state of the standalone `pomodoro` event loop:
its `ui_mode` and `session` variables. -/
structure LoopState where
  ui_mode : UIMode
  session : PomodoroSession
  deriving DecidableEq

/-- Source `pomodoro` loop body (the `match ui_mode`/`match cmd` block),
as a step function on `LoopState`: `none` means the loop breaks
(program termination), `some` is the state at the next iteration. -/
def pomodoro_step (config : PomoConfig) (st : LoopState) (cmd : Command)
    (now : Nat) : Option LoopState :=
  match st.ui_mode with
  | UIMode.Skip elapsed =>
    match cmd with
    | Command.Quit =>
      some { st with ui_mode := UIMode.Running (Stopwatch.new (some now) elapsed) }
    | Command.No =>
      some { st with ui_mode := UIMode.Running (Stopwatch.new (some now) elapsed) }
    | Command.Enter =>
      some { ui_mode := UIMode.Running (Stopwatch.fresh now), session := st.session.next }
    | Command.Yes =>
      some { ui_mode := UIMode.Running (Stopwatch.fresh now), session := st.session.next }
    | _ => some st
  | UIMode.Running stopwatch =>
    let elapsed := stopwatch.elapsed now
    let target_time := st.session.mode.current_target config
    match cmd with
    | Command.Quit => none
    | Command.Enter =>
      if target_time ≤ elapsed then
        some { ui_mode := UIMode.Running (Stopwatch.fresh now), session := st.session.next }
      else some st
    | Command.Pause =>
      some { st with ui_mode := UIMode.Running (stopwatch.stop now) }
    | Command.Resume =>
      some { st with ui_mode := UIMode.Running (stopwatch.start now) }
    | Command.Toggle =>
      some { st with ui_mode := UIMode.Running (stopwatch.toggle now) }
    | Command.Skip =>
      some { st with ui_mode := UIMode.Skip elapsed }
    | _ => some st

/-- The counter a `Stopwatch` denotes: same accumulated time, running iff
a start instant is recorded. -/
def Stopwatch.toCounter (sw : Stopwatch) : Counter :=
  { accumulated := sw.accumulated,
    running := sw.start_time.isSome,
    last_resume_instant := sw.start_time }

/-- The `PomoStateMode` a loop `UIMode` denotes. -/
def UIMode.toPomoMode : UIMode → PomoStateMode
  | UIMode.Skip e => PomoStateMode.Skip e
  | UIMode.Running sw => PomoStateMode.Running sw.toCounter

/-- Simulation relation between a `PomoState` and a loop state: same mode
(up to the stopwatch/counter correspondence), same session, same config. -/
def simR (config : PomoConfig) (ps : PomoState) (ls : LoopState) : Prop :=
  ps.mode = ls.ui_mode.toPomoMode ∧ ps.session = ls.session ∧ ps.config = config

/-- The transitions of `handle_command` that advance the session: Enter in
Running mode with the target reached, or Yes/Enter in Skip mode. -/
def advances (s : PomoState) (command : Command) (now : Nat) : Bool :=
  match command, s.mode with
  | Command.Enter, PomoStateMode.Running counter =>
    decide (s.session.mode.current_target s.config ≤ counter.elapsed now)
  | Command.Enter, PomoStateMode.Skip _ => true
  | Command.Yes, PomoStateMode.Skip _ => true
  | _, _ => false

/-- A sample configuration used to exhibit concrete runs. -/
def cfg0 : PomoConfig :=
  { work_duration := 3, break_duration := 2, long_break_duration := 5 }

/-- A sample running counter: started at instant 1 with 4 ticks banked, so
its elapsed time at instant 6 is 9. -/
def counter0 : Counter :=
  { accumulated := 4, running := true, last_resume_instant := some 1 }

/-- A sample state in Running mode. -/
def sRun : PomoState :=
  { mode := PomoStateMode.Running counter0,
    session := { mode := PomodoroMode.Work, number := 0 },
    config := cfg0, alert := true }

/-- The state `sRun` advances to on Enter at instant 6. -/
def s1run : PomoState :=
  { mode := PomoStateMode.Running (Counter.default.start 6),
    session := ({ mode := PomodoroMode.Work, number := 0 } : PomodoroSession).next,
    config := cfg0, alert := false }

/-- A sample state in Skip mode, frozen at 7 elapsed ticks. -/
def sSkip : PomoState :=
  { mode := PomoStateMode.Skip 7,
    session := { mode := PomodoroMode.Work, number := 2 },
    config := cfg0, alert := true }

/-- A sample stopwatch matching `counter0`. -/
def sw0 : Stopwatch :=
  { start_time := some 1, accumulated := 4 }

/-- A sample loop state in Running mode. -/
def ls0 : LoopState :=
  { ui_mode := UIMode.Running sw0,
    session := { mode := PomodoroMode.Work, number := 0 } }

/-- The `PomoState` related to `ls0` by the simulation relation. -/
def ps0 : PomoState :=
  { mode := PomoStateMode.Running sw0.toCounter,
    session := { mode := PomodoroMode.Work, number := 0 },
    config := cfg0, alert := false }

theorem Stopwatch.toCounter_elapsed (sw : Stopwatch) (now : Nat) :
    sw.toCounter.elapsed now = sw.elapsed now := by
  cases h : sw.start_time <;>
    simp [Stopwatch.toCounter, Counter.elapsed, Stopwatch.elapsed, h]

theorem Stopwatch.toCounter_start (sw : Stopwatch) (now : Nat) :
    (sw.start now).toCounter = sw.toCounter.start now := by
  cases h : sw.start_time <;>
    simp [Stopwatch.toCounter, Stopwatch.start, Counter.start, h]

theorem Stopwatch.toCounter_stop (sw : Stopwatch) (now : Nat) :
    (sw.stop now).toCounter = sw.toCounter.stop now := by
  cases h : sw.start_time <;>
    simp [Stopwatch.toCounter, Stopwatch.stop, Counter.stop, h]

theorem Stopwatch.toCounter_fresh (now : Nat) :
    (Stopwatch.fresh now).toCounter = Counter.default.start now :=
  rfl

theorem Stopwatch.toCounter_toggle (sw : Stopwatch) (now : Nat) :
    (sw.toggle now).toCounter = sw.toCounter.toggle now := by
  cases h : sw.start_time <;>
    simp [Stopwatch.toggle, Stopwatch.stop, Stopwatch.start, Counter.toggle,
      Counter.stop, Counter.start, Stopwatch.toCounter, h]

/-- C2: `should_alert` returns true iff the state's elapsed time — read as
`counter.elapsed()` in Running mode and as the frozen value in Skip mode —
is strictly greater than the current phase's target duration. -/
theorem should_alert_iff_past_target (s : PomoState) (now : Nat) :
    s.should_alert now = true ↔
      s.session.mode.current_target s.config <
        (match s.mode with
          | PomoStateMode.Running counter => counter.elapsed now
          | PomoStateMode.Skip e => e) := by
  cases h : s.mode <;>
    simp [PomoState.should_alert, PomoState.elpased, PomoState.target, h]

/-- C7: `PomoState::alert` invokes the dispatcher with the (title, message)
pair determined by the upcoming phase `session.next().mode`, per the fixed
table: Work, Break, and LongBreak each map to their announcement strings. -/
theorem alert_args_table (s : PomoState) :
    s.alert_args = pomodoro_alert_message s.session.next.mode ∧
    pomodoro_alert_message PomodoroMode.Work =
      ("Your break ended!", "Time for some work") ∧
    pomodoro_alert_message PomodoroMode.Break =
      ("Pomodoro ended!", "Time for a short break") ∧
    pomodoro_alert_message PomodoroMode.LongBreak =
      ("Pomodoro 4 sessions complete!", "Time for a long break") :=
  ⟨rfl, rfl, rfl, rfl⟩

/-- C8: in Running mode, `show` computes the rendered duration by
saturating subtraction: remaining `target - elapsed` while
`elapsed < target`, otherwise excess `elapsed - target`; at
`elapsed = target` the excess branch renders zero; and `saturating_sub`
never goes below zero (it clamps, recovering `a` only when `b ≤ a`). -/
theorem shown_time_saturating (s : PomoState) (counter : Counter) (now : Nat)
    (h : s.mode = PomoStateMode.Running counter) :
    (counter.elapsed now < s.target →
      s.shown_time now =
        ShownTime.remaining (saturating_sub s.target (counter.elapsed now))) ∧
    (s.target ≤ counter.elapsed now →
      s.shown_time now =
        ShownTime.excess (saturating_sub (counter.elapsed now) s.target)) ∧
    (counter.elapsed now = s.target → s.shown_time now = ShownTime.excess 0) ∧
    (∀ a b : Nat, b ≤ a → saturating_sub a b + b = a) ∧
    (∀ a b : Nat, a ≤ b → saturating_sub a b = 0) := by
  refine ⟨?_, ?_, ?_, ?_, ?_⟩
  · intro hlt
    simp [PomoState.shown_time, h, hlt]
  · intro hle
    simp [PomoState.shown_time, h, Nat.not_lt.mpr hle]
  · intro heq
    simp [PomoState.shown_time, h, heq, saturating_sub]
  · intro a b hba
    simp [saturating_sub, Nat.sub_add_cancel hba]
  · intro a b hab
    simp [saturating_sub, Nat.sub_eq_zero_of_le hab]

theorem shown_time_saturating_w :
    sRun.shown_time 6 =
      ShownTime.excess (saturating_sub (counter0.elapsed 6) sRun.target) :=
  (shown_time_saturating sRun counter0 6 rfl).2.1 (by decide)

/-- C3: in Running mode, Enter advances exactly when `counter.elapsed()` is
at least the current phase's target: it then yields `session.next()`, a
fresh started counter, and `alert = false`; below the target the returned
state equals the input in all fields. -/
theorem enter_in_running (s : PomoState) (counter : Counter) (now : Nat)
    (h : s.mode = PomoStateMode.Running counter) :
    (s.session.mode.current_target s.config ≤ counter.elapsed now →
      s.handle_command Command.Enter now = some
        { mode := PomoStateMode.Running (Counter.default.start now),
          session := s.session.next, config := s.config, alert := false }) ∧
    (counter.elapsed now < s.session.mode.current_target s.config →
      s.handle_command Command.Enter now = some s) := by
  obtain ⟨m, sess, cfg, a⟩ := s
  replace h : m = PomoStateMode.Running counter := h
  subst h
  constructor
  · intro hle
    simp [PomoState.handle_command, hle]
  · intro hlt
    simp [PomoState.handle_command, Nat.not_le.mpr hlt]

theorem enter_in_running_w :
    sRun.handle_command Command.Enter 6 = some
      { mode := PomoStateMode.Running (Counter.default.start 6),
        session := sRun.session.next, config := sRun.config, alert := false } :=
  (enter_in_running sRun counter0 6 rfl).1 (by decide)

/-- C5: in Skip mode, Yes or Enter advances the session exactly once to
`session.next()`, clears the alert flag, and installs a fresh zero counter
that is started; every command other than Yes, Enter, No, and Quit leaves
the state unchanged. -/
theorem skip_yes_enter_advances (s : PomoState) (e : Nat) (now : Nat)
    (h : s.mode = PomoStateMode.Skip e) :
    (s.handle_command Command.Yes now = some
      { mode := PomoStateMode.Running (Counter.default.start now),
        session := s.session.next, config := s.config, alert := false }) ∧
    (s.handle_command Command.Enter now = some
      { mode := PomoStateMode.Running (Counter.default.start now),
        session := s.session.next, config := s.config, alert := false }) ∧
    (Counter.default.start now).accumulated = 0 ∧
    (Counter.default.start now).started = true ∧
    (∀ command : Command, command ≠ Command.Yes → command ≠ Command.Enter →
      command ≠ Command.No → command ≠ Command.Quit →
      s.handle_command command now = some s) := by
  obtain ⟨m, sess, cfg, a⟩ := s
  replace h : m = PomoStateMode.Skip e := h
  subst h
  refine ⟨?_, ?_, rfl, rfl, ?_⟩
  · simp [PomoState.handle_command]
  · simp [PomoState.handle_command]
  · intro command h1 h2 h3 h4
    cases command <;> simp_all [PomoState.handle_command]

theorem skip_yes_enter_advances_w :
    sSkip.handle_command Command.Yes 9 = some
      { mode := PomoStateMode.Running (Counter.default.start 9),
        session := sSkip.session.next, config := sSkip.config, alert := false } :=
  (skip_yes_enter_advances sSkip 7 9 rfl).1

/-- C1: whenever `handle_command` returns a state, its alert flag is false
exactly when the transition advances the session (Enter in Running with the
target reached, or Yes/Enter in Skip); on every other command the resulting
alert flag equals the input alert flag. -/
theorem alert_cleared_iff_advance (s : PomoState) (command : Command) (now : Nat)
    (s' : PomoState) (h : s.handle_command command now = some s') :
    s'.alert = if advances s command now then false else s.alert := by
  obtain ⟨m, sess, cfg, a⟩ := s
  cases command <;> cases m <;>
    simp only [PomoState.handle_command] at h <;>
    (try split at h) <;>
    first
      | exact Option.noConfusion h
      | (injection h with h
         subst h
         first
           | (simp [advances]; done)
           | (rename_i counter hc
              simp [advances, hc]))

theorem alert_cleared_iff_advance_w :
    s1run.alert = if advances sRun Command.Enter 6 then false else sRun.alert :=
  alert_cleared_iff_advance sRun Command.Enter 6 s1run (by decide)

/-- C4: from Running mode, Skip freezes the counter's elapsed value; a
subsequent No (or Quit) restores a Running state whose counter is started
and whose elapsed at the instant of restoration equals exactly the value
frozen when Skip was pressed. -/
theorem skip_then_cancel_restores (s : PomoState) (counter : Counter)
    (t1 t2 : Nat) (h : s.mode = PomoStateMode.Running counter) :
    ∃ s1, s.handle_command Command.Skip t1 = some s1 ∧
      s1.mode = PomoStateMode.Skip (counter.elapsed t1) ∧
      (∃ s2, s1.handle_command Command.No t2 = some s2 ∧
        ∃ k, s2.mode = PomoStateMode.Running k ∧
          k.started = true ∧ k.elapsed t2 = counter.elapsed t1) ∧
      (∃ s2, s1.handle_command Command.Quit t2 = some s2 ∧
        ∃ k, s2.mode = PomoStateMode.Running k ∧
          k.started = true ∧ k.elapsed t2 = counter.elapsed t1) := by
  obtain ⟨m, sess, cfg, a⟩ := s
  replace h : m = PomoStateMode.Running counter := h
  subst h
  refine ⟨_, rfl, rfl, ⟨_, rfl, _, rfl, rfl, ?_⟩, ⟨_, rfl, _, rfl, rfl, ?_⟩⟩ <;>
    simp [Counter.elapsed, Counter.start, Counter.fromDuration]

theorem skip_then_cancel_restores_w :
    ∃ s1, sRun.handle_command Command.Skip 6 = some s1 ∧
      s1.mode = PomoStateMode.Skip (counter0.elapsed 6) ∧
      (∃ s2, s1.handle_command Command.No 10 = some s2 ∧
        ∃ k, s2.mode = PomoStateMode.Running k ∧
          k.started = true ∧ k.elapsed 10 = counter0.elapsed 6) ∧
      (∃ s2, s1.handle_command Command.Quit 10 = some s2 ∧
        ∃ k, s2.mode = PomoStateMode.Running k ∧
          k.started = true ∧ k.elapsed 10 = counter0.elapsed 6) :=
  skip_then_cancel_restores sRun counter0 6 10 rfl

/-- C6: `handle_command` is total over commands and states: it returns
`none` iff the command is Quit and the mode is Running; Quit in Skip mode
instead cancels the skip, resuming a started counter from the frozen
elapsed value; the unrecognized command returns the input state unchanged. -/
theorem handle_command_total (s : PomoState) (command : Command) (now : Nat) :
    (s.handle_command command now = none ↔
      command = Command.Quit ∧ ∃ counter, s.mode = PomoStateMode.Running counter) ∧
    (∀ e, s.mode = PomoStateMode.Skip e →
      s.handle_command Command.Quit now = some
        { s with mode := PomoStateMode.Running ((Counter.fromDuration e).start now) }) ∧
    s.handle_command Command.Unknown now = some s := by
  obtain ⟨m, sess, cfg, a⟩ := s
  refine ⟨?_, ?_, ?_⟩
  · cases command <;> cases m <;>
      (simp [PomoState.handle_command] <;> ((try split) <;> simp_all))
  · intro e h
    replace h : m = PomoStateMode.Skip e := h
    subst h
    simp [PomoState.handle_command]
  · simp [PomoState.handle_command]

theorem handle_command_total_w :
    sSkip.handle_command Command.Quit 9 = some
      { sSkip with mode := PomoStateMode.Running ((Counter.fromDuration 7).start 9) } :=
  (handle_command_total sSkip Command.Quit 9).2.1 7 rfl

/-- C10: Pause, Resume, and Toggle in Running mode change only the counter
inside the mode field (to `counter.stop`, `counter.start`, and
`counter.toggle` respectively), leaving session, config, and alert equal to
their input values; in Skip mode these three commands return the input
state unchanged in all fields. -/
theorem pause_resume_toggle_frame (s : PomoState) (now : Nat) :
    (∀ counter, s.mode = PomoStateMode.Running counter →
      s.handle_command Command.Pause now =
        some { s with mode := PomoStateMode.Running (counter.stop now) } ∧
      s.handle_command Command.Resume now =
        some { s with mode := PomoStateMode.Running (counter.start now) } ∧
      s.handle_command Command.Toggle now =
        some { s with mode := PomoStateMode.Running (counter.toggle now) }) ∧
    (∀ e, s.mode = PomoStateMode.Skip e →
      s.handle_command Command.Pause now = some s ∧
      s.handle_command Command.Resume now = some s ∧
      s.handle_command Command.Toggle now = some s) := by
  obtain ⟨m, sess, cfg, a⟩ := s
  constructor
  · intro counter h
    replace h : m = PomoStateMode.Running counter := h
    subst h
    refine ⟨?_, ?_, ?_⟩ <;> simp [PomoState.handle_command]
  · intro e h
    replace h : m = PomoStateMode.Skip e := h
    subst h
    refine ⟨?_, ?_, ?_⟩ <;> simp [PomoState.handle_command]

theorem pause_resume_toggle_frame_w :
    sRun.handle_command Command.Pause 6 =
      some { sRun with mode := PomoStateMode.Running (counter0.stop 6) } :=
  ((pause_resume_toggle_frame sRun 6).1 counter0 rfl).1

/-- C9: the standalone `pomodoro` event loop (over `UIMode` and
`Stopwatch`) implements the same transition relation on the mode and
session components as `PomoState::handle_command`: from states related by
the stopwatch/counter correspondence, the loop breaks exactly when
`handle_command` returns `none`, and every surviving loop step is matched
by a `handle_command` step to a related state (same advances, same frozen
elapsed on Skip, same restored started timer on No/Quit). -/
theorem loop_refines_handle_command (config : PomoConfig) (ps : PomoState)
    (ls : LoopState) (cmd : Command) (now : Nat) (h : simR config ps ls) :
    (pomodoro_step config ls cmd now = none ↔ ps.handle_command cmd now = none) ∧
    (∀ ls', pomodoro_step config ls cmd now = some ls' →
      ∃ ps', ps.handle_command cmd now = some ps' ∧ simR config ps' ls') := by
  obtain ⟨hm, hs, hc⟩ := h
  obtain ⟨pm, psess, pcfg, pa⟩ := ps
  obtain ⟨ui, lsess⟩ := ls
  replace hm : pm = ui.toPomoMode := hm
  replace hs : psess = lsess := hs
  replace hc : pcfg = config := hc
  subst hm hs hc
  cases ui with
  | Skip e =>
    cases cmd <;>
      simp [pomodoro_step, PomoState.handle_command, UIMode.toPomoMode, simR,
        Stopwatch.new, Stopwatch.fresh, Stopwatch.toCounter,
        Counter.fromDuration, Counter.start, Counter.default]
  | Running sw =>
    cases cmd with
    | Quit =>
      simp [pomodoro_step, PomoState.handle_command, UIMode.toPomoMode]
    | Enter =>
      by_cases hle : psess.mode.current_target pcfg ≤ sw.elapsed now
      · simp [pomodoro_step, PomoState.handle_command, UIMode.toPomoMode, simR,
          Stopwatch.toCounter_elapsed, Stopwatch.toCounter_fresh, hle]
      · simp [pomodoro_step, PomoState.handle_command, UIMode.toPomoMode, simR,
          Stopwatch.toCounter_elapsed, hle]
    | Pause =>
      simp [pomodoro_step, PomoState.handle_command, UIMode.toPomoMode, simR,
        Stopwatch.toCounter_stop]
    | Resume =>
      simp [pomodoro_step, PomoState.handle_command, UIMode.toPomoMode, simR,
        Stopwatch.toCounter_start]
    | Toggle =>
      simp [pomodoro_step, PomoState.handle_command, UIMode.toPomoMode, simR,
        Stopwatch.toCounter_toggle]
    | Skip =>
      simp [pomodoro_step, PomoState.handle_command, UIMode.toPomoMode, simR,
        Stopwatch.toCounter_elapsed]
    | Yes =>
      simp [pomodoro_step, PomoState.handle_command, UIMode.toPomoMode, simR]
    | No =>
      simp [pomodoro_step, PomoState.handle_command, UIMode.toPomoMode, simR]
    | Unknown =>
      simp [pomodoro_step, PomoState.handle_command, UIMode.toPomoMode, simR]

theorem loop_refines_handle_command_w :
    pomodoro_step cfg0 ls0 Command.Quit 6 = none ↔
      ps0.handle_command Command.Quit 6 = none :=
  (loop_refines_handle_command cfg0 ps0 ls0 Command.Quit 6 ⟨rfl, rfl, rfl⟩).1

end Porsmo
